import Mathlib

/-
Shallow embedding of the timer engine in `src/pyhelper/gamehelpers/__init__.py`
(classes `Timer`, `CountUpTimer`, `CountDownTimer`).

Modelling conventions:
* Python floats are modelled by exact rationals (`ℚ`); arithmetic is exact.
  Where a behaviour turns on the binary representation of a float literal,
  the exact rational value of the nearest IEEE-754 double is used instead of
  the ideal decimal (see `float3661_2`).
* The wall clock `time.time()` is modelled by passing the current time `now : ℚ`
  explicitly to every operation that reads the clock.  All `time.time()` reads
  performed inside one public method call are collapsed to that single `now`.
* The optional callback `command` is modelled by a `Bool` recording whether a
  callback is configured; operations return, besides the new state, a natural
  number counting how many times the configured callback was invoked during the
  call.  Exceptions raised by the callback are not modelled directly; instead
  the state passed to the callback (the state in effect if the callback raises)
  is exposed by `Timer.stopCallbackState`.
* Fallible construction (`CountDownTimer.__init__`) returns an `Option`.
-/

/-- Model of Python `round(x, n)` on exact rationals: round half to even at
`n` decimal digits. -/
def pyRound (x : ℚ) (n : ℕ) : ℚ :=
  let m : ℚ := (10 : ℚ) ^ n
  let y := x * m
  let fl : ℤ := ⌊y⌋
  let fr := y - (fl : ℚ)
  let r : ℤ :=
    if fr < 1/2 then fl
    else if 1/2 < fr then fl + 1
    else if fl % 2 = 0 then fl else fl + 1
  (r : ℚ) / m

/-- Split a character list at every occurrence of `sep` (helper for `pySplit`). -/
def splitChar (sep : Char) : List Char → List (List Char)
  | [] => [[]]
  | c :: rest =>
    let r := splitChar sep rest
    if c = sep then [] :: r
    else
      match r with
      | [] => [[c]]
      | h :: t => (c :: h) :: t

/-- Model of Python `str.split(sep)` for a one-character separator. -/
def pySplit (s : String) (sep : Char) : List String :=
  (splitChar sep s.toList).map (fun l => String.mk l)

/-- Model of Python string slicing `s[:n]`: the first `n` characters. -/
def strTake (s : String) (n : ℕ) : String :=
  String.mk (s.toList.take n)

/-- Numeric value of a list of decimal digit characters. -/
def digitsVal (l : List Char) : ℕ :=
  l.foldl (fun a c => 10 * a + (c.toNat - 48)) 0

/-- Whether every character of the list is a decimal digit. -/
def allDigits (l : List Char) : Bool :=
  l.all (fun c => c.isDigit)

/-- Strip leading and trailing spaces (model of Python's whitespace strip as
performed by `int()` / `float()`; only the space character is modelled). -/
def charTrim (l : List Char) : List Char :=
  ((l.dropWhile (fun c => c = ' ')).reverse.dropWhile (fun c => c = ' ')).reverse

/-- Model of Python `int(s)` for decimal strings: optional sign followed by a
nonempty run of digits (underscore separators and non-decimal bases are not
modelled). Returns `none` where Python raises `ValueError`. -/
def pyParseInt (s : String) : Option ℤ :=
  match charTrim s.toList with
  | '+' :: rest => if !rest.isEmpty && allDigits rest then some (digitsVal rest : ℤ) else none
  | '-' :: rest => if !rest.isEmpty && allDigits rest then some (-(digitsVal rest : ℤ)) else none
  | l => if !l.isEmpty && allDigits l then some (digitsVal l : ℤ) else none

/-- Unsigned part of Python `float(s)`: digits with an optional decimal point,
at least one digit overall (exponent notation, `inf` and `nan` are not
modelled).  Yields (integer-part value, fractional-part value, fractional
digit count). -/
def pyParseFloatBody (l : List Char) : Option (ℕ × ℕ × ℕ) :=
  let ip := l.takeWhile (fun c => c.isDigit)
  let rest := l.dropWhile (fun c => c.isDigit)
  match rest with
  | [] => if ip.isEmpty then none else some (digitsVal ip, 0, 0)
  | '.' :: frac =>
    if allDigits frac && !(ip.isEmpty && frac.isEmpty) then
      some (digitsVal ip, digitsVal frac, frac.length)
    else none
  | _ => none

/-- Sign and digit groups of Python `float(s)` (helper for `pyParseFloat`). -/
def pyParseFloatParts (s : String) : Option (Bool × ℕ × ℕ × ℕ) :=
  match charTrim s.toList with
  | '+' :: rest => (pyParseFloatBody rest).map (fun p => (false, p))
  | '-' :: rest => (pyParseFloatBody rest).map (fun p => (true, p))
  | l => (pyParseFloatBody l).map (fun p => (false, p))

/-- Rational value of parsed float parts (sign, integer part, fractional part,
fractional digit count). -/
def ratOfFloatParts (p : Bool × ℕ × ℕ × ℕ) : ℚ :=
  (if p.1 then -1 else 1) * ((p.2.1 : ℚ) + (p.2.2.1 : ℚ) / 10 ^ p.2.2.2)

/-- Model of Python `float(s)` for plain decimal strings.  Returns `none`
where Python raises `ValueError`. -/
def pyParseFloat (s : String) : Option ℚ :=
  (pyParseFloatParts s).map ratOfFloatParts

/-- First seventeen fractional decimal digits of `q`, as one natural number
scaled by `10 ^ 17` (helper for `pyFloatStr`). -/
def fracPart17 (q : ℚ) : ℕ :=
  (⌊q * 10 ^ 17⌋ - ⌊q⌋ * 10 ^ 17).toNat

/-- Render the 17 scaled fractional digits, dropping trailing zeros but
keeping at least one digit (helper for `pyFloatStr`). -/
def fracDigitsStr (n : ℕ) : String :=
  let padded := String.mk (List.replicate (17 - (toString n).length) '0') ++ toString n
  let trimmed := String.mk (padded.toList.reverse.dropWhile (fun c => c = '0')).reverse
  if trimmed.toList.isEmpty then "0" else trimmed

/-- Decimal rendering of a nonnegative rational (helper for `pyFloatStr`). -/
def pyFloatStrNN (q : ℚ) : String :=
  toString ⌊q⌋ ++ "." ++ fracDigitsStr (fracPart17 q)

/-- Model of Python `str(x)` on a float value: integer part, a decimal point,
and the fractional decimal digits of the exact rational `q` without trailing
zeros (at least one); digits beyond the seventeenth are dropped.  CPython
prints the shortest decimal that round-trips to the double, so to model the
program on a float the argument must be the exact rational value of the
STORED double (for example `float3661_2` below for the literal 3661.2), not
the ideal decimal; on such a value the two renderings agree on the leading
digits, which is all the 6-character truncation of the seconds field ever
consults. -/
def pyFloatStr (q : ℚ) : String :=
  if q < 0 then "-" ++ pyFloatStrNN (-q) else pyFloatStrNN q

/-- Model of Python `divmod(q, m)` on floats: floor quotient and remainder. -/
def pyDivmodQ (q m : ℚ) : ℤ × ℚ :=
  (⌊q / m⌋, q - m * (⌊q / m⌋ : ℚ))

/-- Model of Python `divmod(a, b)` on ints: floor division and modulus. -/
def pyDivmodZ (a b : ℤ) : ℤ × ℤ :=
  (Int.fdiv a b, Int.fmod a b)

/-- The `HHMMSS` formatting block shared verbatim by `CountUpTimer.get_time`
(lines 200-213) and `CountDownTimer.get_time` (lines 272-284):
`_min, sec = divmod(seconds, 60)`, `hours, _min = divmod(int(_min), 60)`,
zero-pad each component below ten, truncate the seconds string to six
characters, and join with colons. -/
def formatHHMMSS (seconds : ℚ) : String :=
  (if (pyDivmodZ (pyDivmodQ seconds 60).1 60).1 < 10 then
      "0" ++ toString (pyDivmodZ (pyDivmodQ seconds 60).1 60).1
    else toString (pyDivmodZ (pyDivmodQ seconds 60).1 60).1) ++ ":" ++
  (if (pyDivmodZ (pyDivmodQ seconds 60).1 60).2 < 10 then
      "0" ++ toString (pyDivmodZ (pyDivmodQ seconds 60).1 60).2
    else toString (pyDivmodZ (pyDivmodQ seconds 60).1 60).2) ++ ":" ++
  strTake
    (if (pyDivmodQ seconds 60).2 < 10 then "0" ++ pyFloatStr (pyDivmodQ seconds 60).2
     else pyFloatStr (pyDivmodQ seconds 60).2) 6

/-- Return value of the `get_time(mode)` methods, which yield a float in mode
`'seconds'` and a string in mode `'HHMMSS'`. -/
inductive TimeValue where
  | secs (q : ℚ)
  | hms (s : String)
  deriving DecidableEq

/-- State of class `Timer` (lines 63-135): fields in constructor order
`time_in_seconds`, `_saved_time`, `__command` (modelled as whether a callback
is configured), `__is_running`, `__start_time`. -/
structure Timer where
  time_in_seconds : ℚ
  _saved_time : ℚ
  command : Bool
  is_running : Bool
  start_time : ℚ
  deriving DecidableEq

/-- Embeds `Timer.__init__` (lines 74-79). -/
def Timer.init (time_in_seconds : ℚ) (command : Bool) : Timer :=
  { time_in_seconds := time_in_seconds
    _saved_time := 0
    command := command
    is_running := false
    start_time := 0 }

/-- Embeds `Timer.start` (lines 89-95): optionally replace the duration (the
default argument `-1` means no change), set running, anchor at `now`. -/
def Timer.start (now new_time_in_seconds : ℚ) (σ : Timer) : Timer :=
  let σ1 := if new_time_in_seconds ≠ -1 then { σ with time_in_seconds := new_time_in_seconds } else σ
  { σ1 with is_running := true, start_time := now }

/-- Embeds `Timer.get_time` (lines 120-126): if running, recompute
`_saved_time` rounded to `number_of_reserved_bits` digits; return the saved
time.  Result: (returned value, new state). -/
def Timer.get_time (now : ℚ) (number_of_reserved_bits : ℕ) (σ : Timer) : ℚ × Timer :=
  if σ.is_running then
    let v := pyRound (now - σ.start_time) number_of_reserved_bits
    (v, { σ with _saved_time := v })
  else
    (σ._saved_time, σ)

/-- Embeds `Timer.stop` (lines 128-135): take a `get_time` snapshot, clear the
running flag, invoke the configured callback, return a final `get_time`.
Result: (new state, number of callback invocations, returned value). -/
def Timer.stop (now : ℚ) (σ : Timer) : Timer × ℕ × ℚ :=
  let σ1 := (Timer.get_time now 2 σ).2
  let σ2 := { σ1 with is_running := false }
  let fires := if σ2.command then 1 else 0
  let r := Timer.get_time now 2 σ2
  (r.2, fires, r.1)

/-- The state in effect at the instant `Timer.stop` invokes the callback
(after line 132 `self.__is_running = False`, before line 134
`self.__command()`): the `get_time` snapshot with the running flag cleared. -/
def Timer.stopCallbackState (now : ℚ) (σ : Timer) : Timer :=
  { (Timer.get_time now 2 σ).2 with is_running := false }

/-- Embeds `Timer.update` (lines 97-107): no-op when not running; otherwise
recompute `_saved_time = now - start_time` and, unless the saved time is below
the bound or the bound is negative, stop.  Result: (new state, callback
invocation count). -/
def Timer.update (now : ℚ) (σ : Timer) : Timer × ℕ :=
  if σ.is_running then
    let σ1 := { σ with _saved_time := now - σ.start_time }
    if σ1._saved_time < σ1.time_in_seconds ∨ σ1.time_in_seconds < 0 then (σ1, 0)
    else
      let r := Timer.stop now σ1
      (r.1, r.2.1)
  else (σ, 0)

/-- Embeds `Timer.pause` (lines 109-112). -/
def Timer.pause (σ : Timer) : Timer :=
  { σ with is_running := false }

/-- Embeds `Timer.go_on` (lines 114-118): set running, then `update`. -/
def Timer.go_on (now : ℚ) (σ : Timer) : Timer × ℕ :=
  Timer.update now { σ with is_running := true }

/-- Drive a `Timer` by successive `update()` calls at the given times,
accumulating the number of callback invocations. -/
def Timer.runUpdates (σ : Timer) : List ℚ → Timer × ℕ
  | [] => (σ, 0)
  | t :: ts =>
    let r := Timer.update t σ
    let rest := Timer.runUpdates r.1 ts
    (rest.1, r.2 + rest.2)

/-- One public operation of class `Timer`, tagged with its arguments. -/
inductive TimerOp where
  | start (new_time_in_seconds : ℚ)
  | update
  | pause
  | go_on
  | get_time (number_of_reserved_bits : ℕ)
  | stop
  deriving DecidableEq

/-- Apply one `TimerOp` at time `now`, returning the new state and the number
of callback invocations it performed. -/
def Timer.runOp (σ : Timer) (now : ℚ) : TimerOp → Timer × ℕ
  | TimerOp.start q => (Timer.start now q σ, 0)
  | TimerOp.update => Timer.update now σ
  | TimerOp.pause => (Timer.pause σ, 0)
  | TimerOp.go_on => Timer.go_on now σ
  | TimerOp.get_time b => ((Timer.get_time now b σ).2, 0)
  | TimerOp.stop =>
    let r := Timer.stop now σ
    (r.1, r.2.1)

/-- Apply a sequence of timestamped `TimerOp`s, accumulating callback
invocations. -/
def Timer.runOps (σ : Timer) : List (ℚ × TimerOp) → Timer × ℕ
  | [] => (σ, 0)
  | p :: ps =>
    let r := Timer.runOp σ p.1 p.2
    let rest := Timer.runOps r.1 ps
    (rest.1, r.2 + rest.2)

/-- State of class `CountUpTimer` (lines 138-218): fields in constructor order
`__is_running`, `__saved_time`, `__start_time`, `is_pause`. -/
structure CountUpTimer where
  is_running : Bool
  saved_time : ℚ
  start_time : ℚ
  is_pause : Bool
  deriving DecidableEq

/-- Embeds `CountUpTimer.__init__` (lines 151-155), called at wall-clock time
`t0`: the anchor is `start_time + time.time()`. -/
def CountUpTimer.init (start_time : ℚ) (t0 : ℚ) : CountUpTimer :=
  { is_running := false
    saved_time := 0
    start_time := start_time + t0
    is_pause := false }

/-- Embeds `CountUpTimer.start` (lines 167-174): re-anchor and zero the saved
time only when `is_pause` already holds, then set running and `is_pause`. -/
def CountUpTimer.start (now : ℚ) (σ : CountUpTimer) : CountUpTimer :=
  let σ1 := if σ.is_pause then { σ with start_time := now, saved_time := 0 } else σ
  { σ1 with is_running := true, is_pause := true }

/-- Embeds `CountUpTimer._get_time` (lines 176-185): frozen value when not
running, else recompute `now - start_time` and save it. -/
def CountUpTimer._get_time (now : ℚ) (σ : CountUpTimer) : ℚ × CountUpTimer :=
  if σ.is_running then
    (now - σ.start_time, { σ with saved_time := now - σ.start_time })
  else
    (σ.saved_time, σ)

/-- Embeds `CountUpTimer.get_time` (lines 187-213): raw seconds unless the
mode is `'HHMMSS'`, in which case the shared formatting block applies. -/
def CountUpTimer.get_time (now : ℚ) (mode : String) (σ : CountUpTimer) :
    TimeValue × CountUpTimer :=
  if mode ≠ "HHMMSS" then
    let r := CountUpTimer._get_time now σ
    (TimeValue.secs r.1, r.2)
  else
    let r := CountUpTimer._get_time now σ
    (TimeValue.hms (formatHHMMSS r.1), r.2)

/-- Embeds `CountUpTimer.stop` (lines 215-218). -/
def CountUpTimer.stop (now : ℚ) (σ : CountUpTimer) : CountUpTimer :=
  { (CountUpTimer.get_time now "seconds" σ).2 with is_running := false }

/-- State of class `CountDownTimer` (lines 221-288): the parsed total duration
`seconds` and the wrapped `Timer`. -/
structure CountDownTimer where
  seconds : ℚ
  timer : Timer
  deriving DecidableEq

/-- Embeds `CountDownTimer.__init__` (lines 230-239): split the input on
colons, convert field 0 with `int`, field 1 with `int`, field 2 with `float`
(in that order; extra fields are ignored), combine into total seconds, and
wrap a `Timer` with that bound.  `none` models the propagated exception
(`IndexError` on a missing field, `ValueError` on a failed conversion). -/
def CountDownTimer.init (str_start_time : String) (command : Bool) :
    Option CountDownTimer := do
  let list_time := pySplit str_start_time ':'
  let s0 ← list_time.get? 0
  let hours ← pyParseInt s0
  let s1 ← list_time.get? 1
  let mins ← pyParseInt s1
  let s2 ← list_time.get? 2
  let sec ← pyParseFloat s2
  let seconds := (hours : ℚ) * 3600 + (mins : ℚ) * 60 + sec
  if command then
    pure { seconds := seconds, timer := Timer.init seconds true }
  else
    pure { seconds := seconds, timer := Timer.init seconds false }

/-- Embeds `CountDownTimer.start` (lines 241-243). -/
def CountDownTimer.start (now : ℚ) (σ : CountDownTimer) : CountDownTimer :=
  { σ with timer := Timer.start now (-1) σ.timer }

/-- Embeds `CountDownTimer.update` (lines 245-247). -/
def CountDownTimer.update (now : ℚ) (σ : CountDownTimer) : CountDownTimer × ℕ :=
  let r := Timer.update now σ.timer
  ({ σ with timer := r.1 }, r.2)

/-- Embeds `CountDownTimer.pause` (lines 249-251). -/
def CountDownTimer.pause (σ : CountDownTimer) : CountDownTimer :=
  { σ with timer := Timer.pause σ.timer }

/-- Embeds `CountDownTimer.go_on` (lines 253-256): delegate, then `update`. -/
def CountDownTimer.go_on (now : ℚ) (σ : CountDownTimer) : CountDownTimer × ℕ :=
  let r := Timer.go_on now σ.timer
  let r2 := Timer.update now r.1
  ({ σ with timer := r2.1 }, r.2 + r2.2)

/-- Embeds `CountDownTimer.get_time` (lines 258-284): read the remaining time
`seconds - timer._saved_time` directly from the frozen snapshot (no clock
access, no state write), formatted by the shared block in mode `'HHMMSS'`. -/
def CountDownTimer.get_time (mode : String) (σ : CountDownTimer) :
    TimeValue × CountDownTimer :=
  let saved_time := σ.seconds - σ.timer._saved_time
  if mode ≠ "HHMMSS" then (TimeValue.secs saved_time, σ)
  else (TimeValue.hms (formatHHMMSS saved_time), σ)

/-- Embeds `CountDownTimer.stop` (lines 286-288). -/
def CountDownTimer.stop (now : ℚ) (σ : CountDownTimer) : CountDownTimer × ℕ :=
  let r := Timer.stop now σ.timer
  ({ σ with timer := r.1 }, r.2.1)

/-- Well-formedness of a duration string per the specification's words:
exactly three colon-separated fields, hours and minutes parseable as
integers, seconds parseable as a float.  Used to compare the specified
constructor domain with the implemented one. -/
def specHMSForm (s : String) : Bool :=
  (pySplit s ':').length = 3 &&
  (pyParseInt ((pySplit s ':').getD 0 "")).isSome &&
  (pyParseInt ((pySplit s ':').getD 1 "")).isSome &&
  (pyParseFloat ((pySplit s ':').getD 2 "")).isSome

/-- C3: whenever `Timer.stop` runs, the state observed by the callback already
has the running flag cleared and the saved time frozen to the `get_time`
snapshot; the state `stop` finally returns is that same committed state (so a
raising callback leaves the timer in the committed stopped state), and the
value `stop` returns is the frozen snapshot; the callback is invoked exactly
when one is configured. -/
theorem timer_c3 (now : ℚ) (σ : Timer) :
    (Timer.stop now σ).1 = Timer.stopCallbackState now σ ∧
    (Timer.stopCallbackState now σ).is_running = false ∧
    (Timer.stopCallbackState now σ)._saved_time = (Timer.get_time now 2 σ).1 ∧
    (Timer.stop now σ).2.2 = (Timer.get_time now 2 σ).1 ∧
    (Timer.stop now σ).2.1 = (if σ.command then 1 else 0) := by
  by_cases h : σ.is_running <;>
    simp [Timer.stop, Timer.stopCallbackState, Timer.get_time, h]

/-- C4: resuming with `go_on` keeps the original anchor `start_time` and
recomputes the saved elapsed time as `now - start_time`, so the reading after
a pause is the total wall-clock time since the original start, paused
interval included (stated for resumes at which the bound is not yet reached
or is unbounded). -/
theorem timer_c4 (now : ℚ) (σ : Timer)
    (hno : now - σ.start_time < σ.time_in_seconds ∨ σ.time_in_seconds < 0) :
    (∀ τ : Timer, (Timer.go_on now τ).1.start_time = τ.start_time) ∧
    (Timer.go_on now σ).1.start_time = σ.start_time ∧
    (Timer.go_on now σ).1._saved_time = now - σ.start_time ∧
    (Timer.go_on now σ).1.is_running = true ∧
    (Timer.go_on now σ).2 = 0 := by
  have hpres : ∀ τ : Timer, (Timer.go_on now τ).1.start_time = τ.start_time := by
    intro τ
    by_cases hc : now - τ.start_time < τ.time_in_seconds ∨ τ.time_in_seconds < 0
    · simp only [Timer.go_on, Timer.update]
      rw [if_pos trivial, if_pos hc]
    · simp only [Timer.go_on, Timer.update]
      rw [if_pos trivial, if_neg hc]
      simp [Timer.stop, Timer.get_time]
  refine ⟨hpres, ?_⟩
  simp only [Timer.go_on, Timer.update]
  rw [if_pos trivial, if_pos hno]
  exact ⟨rfl, rfl, rfl, rfl⟩

/-- Witness for C4 at a concrete paused unbounded timer. -/
theorem timer_c4_witness :
    (Timer.go_on 5 ⟨-1, 1, false, false, 0⟩).1.start_time = 0 ∧
    (Timer.go_on 5 ⟨-1, 1, false, false, 0⟩).1._saved_time = 5 - 0 ∧
    (Timer.go_on 5 ⟨-1, 1, false, false, 0⟩).1.is_running = true ∧
    (Timer.go_on 5 ⟨-1, 1, false, false, 0⟩).2 = 0 :=
  (timer_c4 5 ⟨-1, 1, false, false, 0⟩ (Or.inr (by norm_num))).2

/-- C5: `CountDownTimer.get_time` leaves the state unchanged, returns
`seconds - timer._saved_time` (formatted in mode `'HHMMSS'`, raw otherwise)
straight from the frozen snapshot, and its result is insensitive to the
internal timer's running flag and anchor, i.e. no fresh recompute happens. -/
theorem countdown_c5 (mode : String) (σ : CountDownTimer) :
    (CountDownTimer.get_time mode σ).2 = σ ∧
    (CountDownTimer.get_time mode σ).1 =
      (if mode = "HHMMSS" then
        TimeValue.hms (formatHHMMSS (σ.seconds - σ.timer._saved_time))
      else TimeValue.secs (σ.seconds - σ.timer._saved_time)) ∧
    (∀ b y, (CountDownTimer.get_time mode
        { σ with timer := { σ.timer with is_running := b, start_time := y } }).1 =
        (CountDownTimer.get_time mode σ).1) := by
  by_cases h : mode = "HHMMSS" <;> simp [CountDownTimer.get_time, h]

/-- C9: `Timer.get_time` recomputes and rounds only while running; on a
stopped timer it returns the stored saved time unchanged, mutates nothing,
and a second call returns the identical value again. -/
theorem timer_c9 (now now2 : ℚ) (bits bits2 : ℕ) (σ : Timer) :
    (σ.is_running = true →
      Timer.get_time now bits σ =
        (pyRound (now - σ.start_time) bits,
         { σ with _saved_time := pyRound (now - σ.start_time) bits })) ∧
    (σ.is_running = false →
      Timer.get_time now bits σ = (σ._saved_time, σ) ∧
      Timer.get_time now2 bits2 ((Timer.get_time now bits σ).2) = (σ._saved_time, σ)) := by
  constructor
  · intro h; simp [Timer.get_time, h]
  · intro h; simp [Timer.get_time, h]

/-- Witness for C9 at a concrete stopped timer: two successive reads return
the stored value and change no state. -/
theorem timer_c9_witness :
    Timer.get_time 5 2 ⟨-1, 7, false, false, 0⟩ = (7, ⟨-1, 7, false, false, 0⟩) ∧
    Timer.get_time 9 3 ((Timer.get_time 5 2 ⟨-1, 7, false, false, 0⟩).2) =
      (7, ⟨-1, 7, false, false, 0⟩) :=
  (timer_c9 5 9 2 3 ⟨-1, 7, false, false, 0⟩).2 rfl

/-- C10: the first `CountUpTimer.start` (with `is_pause` still false) neither
re-anchors nor resets: the anchor stays `s + t0` from construction, so a
running reading at `t2` is `(t2 - t0) - s`; a second start (with `is_pause`
true) re-anchors to the current time and zeroes the saved time. -/
theorem countup_c10 (s t0 t1 t2 t3 : ℚ) :
    (CountUpTimer.start t1 (CountUpTimer.init s t0)).start_time = s + t0 ∧
    (CountUpTimer.start t1 (CountUpTimer.init s t0)).saved_time = 0 ∧
    (CountUpTimer.start t1 (CountUpTimer.init s t0)).is_running = true ∧
    (CountUpTimer.start t1 (CountUpTimer.init s t0)).is_pause = true ∧
    (CountUpTimer._get_time t2 (CountUpTimer.start t1 (CountUpTimer.init s t0))).1 =
      (t2 - t0) - s ∧
    (CountUpTimer.start t3
      (CountUpTimer._get_time t2 (CountUpTimer.start t1 (CountUpTimer.init s t0))).2).start_time = t3 ∧
    (CountUpTimer.start t3
      (CountUpTimer._get_time t2 (CountUpTimer.start t1 (CountUpTimer.init s t0))).2).saved_time = 0 := by
  simp [CountUpTimer.init, CountUpTimer.start, CountUpTimer._get_time]
  ring

/-- An update on a stopped timer is a no-op (line 100-101 early return). -/
theorem update_not_running (t : ℚ) (σ : Timer) (h : σ.is_running = false) :
    Timer.update t σ = (σ, 0) := by
  simp [Timer.update, h]

/-- Polling a stopped timer any number of times is a no-op. -/
theorem runUpdates_not_running (ts : List ℚ) (σ : Timer) (h : σ.is_running = false) :
    Timer.runUpdates σ ts = (σ, 0) := by
  induction ts with
  | nil => rfl
  | cons t ts ih => simp [Timer.runUpdates, update_not_running t σ h, ih]

/-- Splitting a polling sequence splits the resulting state and callback
count. -/
theorem runUpdates_append (xs ys : List ℚ) (σ : Timer) :
    Timer.runUpdates σ (xs ++ ys) =
      ((Timer.runUpdates (Timer.runUpdates σ xs).1 ys).1,
       (Timer.runUpdates σ xs).2 + (Timer.runUpdates (Timer.runUpdates σ xs).1 ys).2) := by
  induction xs generalizing σ with
  | nil => simp [Timer.runUpdates]
  | cons x xs ih =>
    simp only [List.cons_append, Timer.runUpdates, List.append_eq, ih, Prod.mk.injEq]
    exact ⟨trivial, (Nat.add_assoc _ _ _).symm⟩

/-- An update on a running timer whose elapsed time is still below the bound
only refreshes the saved time. -/
theorem update_below_bound (t : ℚ) (σ : Timer) (hrun : σ.is_running = true)
    (h : t - σ.start_time < σ.time_in_seconds) :
    Timer.update t σ = ({ σ with _saved_time := t - σ.start_time }, 0) := by
  simp [Timer.update, hrun, h]

/-- An update on a running timer whose elapsed time has reached a nonnegative
bound stops the timer, freezes the rounded elapsed time, and invokes the
configured callback once. -/
theorem update_at_bound (t : ℚ) (σ : Timer) (hrun : σ.is_running = true)
    (hd : 0 ≤ σ.time_in_seconds) (h : σ.time_in_seconds ≤ t - σ.start_time) :
    Timer.update t σ =
      ({ σ with _saved_time := pyRound (t - σ.start_time) 2, is_running := false },
       if σ.command then 1 else 0) := by
  simp [Timer.update, hrun, Timer.stop, Timer.get_time, not_lt.mpr h, not_lt.mpr hd]

/-- Polling a running bounded timer at times that all stay below the bound
fires no callback, keeps it running, and only rewrites the saved time. -/
theorem runUpdates_below_bound (pre : List ℚ) (σ : Timer) (hrun : σ.is_running = true)
    (hpre : ∀ u ∈ pre, u - σ.start_time < σ.time_in_seconds) :
    (Timer.runUpdates σ pre).2 = 0 ∧
    (Timer.runUpdates σ pre).1.is_running = true ∧
    (Timer.runUpdates σ pre).1.time_in_seconds = σ.time_in_seconds ∧
    (Timer.runUpdates σ pre).1.start_time = σ.start_time ∧
    (Timer.runUpdates σ pre).1.command = σ.command := by
  induction pre generalizing σ with
  | nil => exact ⟨rfl, hrun, rfl, rfl, rfl⟩
  | cons u us ih =>
    have hu : u - σ.start_time < σ.time_in_seconds := hpre u (List.mem_cons_self u us)
    have step := update_below_bound u σ hrun hu
    have ihs := ih { σ with _saved_time := u - σ.start_time } hrun
      (fun v hv => hpre v (List.mem_cons_of_mem u hv))
    simp only [Timer.runUpdates, step]
    simpa using ihs

/-- C1: a timer started with bound `d ≥ 0` and polled only by `update()`
stops exactly at the first update whose elapsed time `t - t0` reaches `d`:
no callback fires and the timer keeps running over the earlier updates, the
whole sequence fires the configured callback exactly once, the run ends in
exactly the state produced by the triggering update (later updates are
no-ops), and that state is stopped. -/
theorem timer_c1 (d t0 t : ℚ) (pre post : List ℚ) (σ0 : Timer)
    (hσ : σ0 = Timer.start t0 (-1) (Timer.init d true))
    (hd : 0 ≤ d) (hpre : ∀ u ∈ pre, u - t0 < d) (ht : d ≤ t - t0) :
    (Timer.runUpdates σ0 pre).2 = 0 ∧
    (Timer.runUpdates σ0 pre).1.is_running = true ∧
    Timer.runUpdates σ0 (pre ++ t :: post) =
      ((Timer.update t (Timer.runUpdates σ0 pre).1).1, 1) ∧
    (Timer.update t (Timer.runUpdates σ0 pre).1).1.is_running = false := by
  have hstart : σ0 = (⟨d, 0, true, true, t0⟩ : Timer) := by
    rw [hσ]; simp [Timer.start, Timer.init]
  subst hstart
  obtain ⟨hf0, hfrun, hfdur, hfstart, hfcmd⟩ :=
    runUpdates_below_bound pre ⟨d, 0, true, true, t0⟩ rfl hpre
  have htrig := update_at_bound t (Timer.runUpdates ⟨d, 0, true, true, t0⟩ pre).1 hfrun
    (by rw [hfdur]; exact hd) (by rw [hfdur, hfstart]; exact ht)
  have hstopped : (Timer.update t (Timer.runUpdates ⟨d, 0, true, true, t0⟩ pre).1).1.is_running = false := by
    rw [htrig]
  have hpost := runUpdates_not_running post
    (Timer.update t (Timer.runUpdates ⟨d, 0, true, true, t0⟩ pre).1).1 hstopped
  refine ⟨hf0, hfrun, ?_, hstopped⟩
  rw [runUpdates_append pre (t :: post) ⟨d, 0, true, true, t0⟩]
  have hstep : Timer.runUpdates (Timer.runUpdates ⟨d, 0, true, true, t0⟩ pre).1 (t :: post) =
      ((Timer.update t (Timer.runUpdates ⟨d, 0, true, true, t0⟩ pre).1).1,
       (Timer.update t (Timer.runUpdates ⟨d, 0, true, true, t0⟩ pre).1).2 + 0) := by
    simp only [Timer.runUpdates, hpost]
  rw [hstep, hf0, htrig, hfcmd]
  simp

/-- Witness for C1: bound 1 anchored at 0, one triggering update at time 2
followed by a late update at time 3. -/
theorem timer_c1_witness :
    (Timer.runUpdates (Timer.start 0 (-1) (Timer.init 1 true)) []).2 = 0 ∧
    (Timer.runUpdates (Timer.start 0 (-1) (Timer.init 1 true)) []).1.is_running = true ∧
    Timer.runUpdates (Timer.start 0 (-1) (Timer.init 1 true)) ([] ++ 2 :: [3]) =
      ((Timer.update 2 (Timer.runUpdates (Timer.start 0 (-1) (Timer.init 1 true)) []).1).1, 1) ∧
    (Timer.update 2 (Timer.runUpdates (Timer.start 0 (-1) (Timer.init 1 true)) []).1).1.is_running = false :=
  timer_c1 1 0 2 [] [3] (Timer.start 0 (-1) (Timer.init 1 true)) rfl
    (by norm_num) (by simp) (by norm_num)

/-- An update on a timer with a negative (unbounded-sentinel) duration never
fires the callback and keeps the duration. -/
theorem update_unbounded (t : ℚ) (σ : Timer) (h : σ.time_in_seconds < 0) :
    (Timer.update t σ).2 = 0 ∧
    (Timer.update t σ).1.time_in_seconds = σ.time_in_seconds := by
  by_cases hr : σ.is_running <;> simp [Timer.update, hr, h]

/-- Any sequence of `start`/`update`/`pause`/`go_on`/`get_time` operations
(no direct `stop`) on a timer whose duration is negative, with every `start`
override negative, fires no callback and keeps the duration negative. -/
theorem runOps_unbounded (ops : List (ℚ × TimerOp)) : ∀ σ : Timer,
    σ.time_in_seconds < 0 →
    (∀ p ∈ ops, p.2 ≠ TimerOp.stop ∧ ∀ q, p.2 = TimerOp.start q → q < 0) →
    (Timer.runOps σ ops).2 = 0 ∧ (Timer.runOps σ ops).1.time_in_seconds < 0 := by
  induction ops with
  | nil => exact fun σ h _ => ⟨rfl, h⟩
  | cons p ps ih =>
    intro σ h hops
    obtain ⟨hstop, hstart⟩ := hops p (List.mem_cons_self p ps)
    have hops' := fun q hq => hops q (List.mem_cons_of_mem p hq)
    have hstep : (Timer.runOp σ p.1 p.2).2 = 0 ∧
        (Timer.runOp σ p.1 p.2).1.time_in_seconds < 0 := by
      match hp : p.2 with
      | TimerOp.start q =>
        have hq : q < 0 := hstart q hp
        constructor
        · rfl
        · simp only [Timer.runOp, Timer.start]
          by_cases hne : q = -1
          · simp [hne, h]
          · simp [hne, hq]
      | TimerOp.update =>
        have := update_unbounded p.1 σ h
        exact ⟨this.1, this.2 ▸ h⟩
      | TimerOp.pause => exact ⟨rfl, h⟩
      | TimerOp.go_on =>
        have := update_unbounded p.1 { σ with is_running := true } h
        exact ⟨this.1, this.2 ▸ h⟩
      | TimerOp.get_time b =>
        constructor
        · rfl
        · simp only [Timer.runOp, Timer.get_time]
          by_cases hr : σ.is_running <;> simp [hr, h]
      | TimerOp.stop => exact absurd hp hstop
    have ihs := ih (Timer.runOp σ p.1 p.2).1 hstep.2 hops'
    simp only [Timer.runOps]
    exact ⟨by rw [hstep.1, ihs.1], ihs.2⟩

/-- C2 counterexample: the claim admits `stop` among the operations, but a
direct `stop()` on a freshly constructed unbounded timer with a configured
callback invokes that callback once. -/
theorem timer_c2_counterexample :
    (Timer.runOps (Timer.init (-1) true) [(0, TimerOp.stop)]).2 = 1 := rfl

/-- C2 (amended): a timer constructed with a negative sentinel duration and
driven by any sequence of `start`/`update`/`pause`/`go_on`/`get_time`
operations whose `start` overrides are all negative — i.e. excluding direct
`stop()` calls, which always invoke a configured callback — never invokes
the callback. -/
theorem timer_c2_amended (d : ℚ) (c : Bool) (ops : List (ℚ × TimerOp))
    (hd : d < 0)
    (hops : ∀ p ∈ ops, p.2 ≠ TimerOp.stop ∧ ∀ q, p.2 = TimerOp.start q → q < 0) :
    (Timer.runOps (Timer.init d c) ops).2 = 0 :=
  (runOps_unbounded ops (Timer.init d c) hd hops).1

/-- Witness for C2 (amended): an unbounded timer driven through a start, two
updates, a pause, a resume and a read never fires its callback. -/
theorem timer_c2_amended_witness :
    (Timer.runOps (Timer.init (-1) true)
      [(0, TimerOp.start (-1)), (1, TimerOp.update), (100, TimerOp.update),
       (101, TimerOp.pause), (102, TimerOp.go_on), (103, TimerOp.get_time 2)]).2 = 0 :=
  timer_c2_amended (-1) true _ (by norm_num)
    (by
      intro p hp
      simp only [List.mem_cons, List.not_mem_nil, or_false] at hp
      rcases hp with h | h | h | h | h | h <;> subst h
      · exact ⟨by simp, fun q hq => by
          simp only [TimerOp.start.injEq] at hq
          subst hq; norm_num⟩
      · exact ⟨by simp, fun q hq => by simp at hq⟩
      · exact ⟨by simp, fun q hq => by simp at hq⟩
      · exact ⟨by simp, fun q hq => by simp at hq⟩
      · exact ⟨by simp, fun q hq => by simp at hq⟩
      · exact ⟨by simp, fun q hq => by simp at hq⟩)

/-- C7: constructing a count-down timer from `"01:02:03.5"` parses to exactly
3723.5 total seconds, and that value is the bound handed to the wrapped
`Timer`. -/
theorem countdown_c7 (c : Bool) :
    ∃ t, CountDownTimer.init "01:02:03.5" c = some t ∧
      t.seconds = 3723.5 ∧ t.timer.time_in_seconds = 3723.5 := by
  have hsplit : pySplit "01:02:03.5" ':' = ["01", "02", "03.5"] := by decide
  have g0 : ["01", "02", "03.5"].get? 0 = some "01" := rfl
  have g1 : ["01", "02", "03.5"].get? 1 = some "02" := rfl
  have g2 : ["01", "02", "03.5"].get? 2 = some "03.5" := rfl
  have h0 : pyParseInt "01" = some 1 := by decide
  have h1 : pyParseInt "02" = some 2 := by decide
  have h2 : pyParseFloat "03.5" = some (7/2) := by
    have hp : pyParseFloatParts "03.5" = some (false, 3, 5, 1) := by decide
    simp only [pyParseFloat, hp, Option.map_some']
    norm_num [ratOfFloatParts]
  have e1 : digitsVal ['0', '1'] = 1 := by decide
  have e2 : digitsVal ['0', '2'] = 2 := by decide
  have e3 : digitsVal (List.takeWhile (fun c => c.isDigit) ['0', '3', '.', '5']) = 3 := by decide
  have e5 : digitsVal ['5'] = 5 := by decide
  cases c <;>
    simp only [CountDownTimer.init, hsplit, g0, g1, g2, h0, h1, h2, Option.some_bind,
      Bool.false_eq_true, if_false, if_true, Option.some.injEq] <;>
    exact ⟨_, rfl, by norm_num [e1, e2, e3, e5, ratOfFloatParts],
      by norm_num [Timer.init, e1, e2, e3, e5, ratOfFloatParts]⟩

/-- Exact rational value of the IEEE-754 double nearest to 3661.2, the value
CPython stores for the float literal `3661.2`.  For 3661.2 the exponent
places one unit in the last place at `2 ^ (-41)`; the fractional part 0.2
scaled by `2 ^ 41` is `2 ^ 41 / 5 = 439804651110.4`, which rounds to the
nearest representable `439804651110`, so the stored double is
`3661 + 439804651110 / 2 ^ 41 = 3661.2 - 0.4 * 2 ^ (-41)`, slightly below
3661.2. -/
def float3661_2 : ℚ :=
  3661 + 439804651110 / 2 ^ 41

/-- Formatting the stored double for 3661.2 yields `"01:01:01.199"`.  Every
arithmetic step the program performs on this value is exact in doubles
(`float3661_2 % 60 = float3661_2 - 3660` is a multiple of `2 ^ (-41)` inside
`[1, 2)`, hence representable), so the exact-rational evaluation below tracks
the program.  The remainder is `1.19999999999981810105…`; CPython prints its
shortest round-tripping decimal `1.199999999999818`, while `pyFloatStr`
prints the truncated 17-digit expansion `1.1999999999998181`; the two agree
on every digit the final 6-character truncation consults, which gives the
seconds field `01.199`. -/
theorem formatHHMMSS_float3661_2 : formatHHMMSS float3661_2 = "01:01:01.199" := by
  have hdq : pyDivmodQ float3661_2 60 = (61, (1319413953331 : ℚ) / 1099511627776) := by
    simp only [pyDivmodQ, Prod.mk.injEq]
    norm_num [float3661_2]
  have hdz : pyDivmodZ 61 60 = (1, 1) := by decide
  have hfs : pyFloatStr ((1319413953331 : ℚ) / 1099511627776) = "1.1999999999998181" := by
    have hlt : ¬ ((1319413953331 : ℚ) / 1099511627776 < 0) := by norm_num
    have hf17 : fracPart17 ((1319413953331 : ℚ) / 1099511627776) = 19999999999981810 := by
      simp only [fracPart17]
      norm_num
      rfl
    have hfl : (⌊((1319413953331 : ℚ) / 1099511627776)⌋ : ℤ) = 1 := by norm_num
    simp only [pyFloatStr, if_neg hlt, pyFloatStrNN, hf17, hfl]
    decide
  simp only [formatHHMMSS, hdq, hdz, hfs, strTake]
  norm_num
  decide

/-- Formatting the exact decimal value 3661.2 would yield `"01:01:01.2"`: the
discrepancy recorded in `formatHHMMSS_float3661_2` comes solely from the
binary representation of the stored float, not from the formatting block. -/
theorem formatHHMMSS_exact3661_2 : formatHHMMSS (3661.2 : ℚ) = "01:01:01.2" := by
  have hdq : pyDivmodQ (3661.2 : ℚ) 60 = (61, 1.2) := by
    simp only [pyDivmodQ, Prod.mk.injEq]
    norm_num
  have hdz : pyDivmodZ 61 60 = (1, 1) := by decide
  have hfs : pyFloatStr (1.2 : ℚ) = "1.2" := by
    have hlt : ¬ ((1.2 : ℚ) < 0) := by norm_num
    have hf17 : fracPart17 (1.2 : ℚ) = 20000000000000000 := by
      simp only [fracPart17]
      norm_num
      rfl
    have hfl : (⌊(1.2 : ℚ)⌋ : ℤ) = 1 := by norm_num
    simp only [pyFloatStr, if_neg hlt, pyFloatStrNN, hf17, hfl]
    decide
  simp only [formatHHMMSS, hdq, hdz, hfs, strTake]
  norm_num
  decide

/-- C8 counterexample: storing the elapsed float 3661.2 stores the double
`float3661_2`; on a stopped count-up timer, `get_time('HHMMSS')` then returns
`"01:01:01.199"` — the seconds field `1.1999999999998181…` zero-pads and
truncates to `01.199` — and in particular not the claimed `"01:01:01.2"`. -/
theorem countup_c8_counterexample :
    CountUpTimer.get_time 0 "HHMMSS" ⟨false, float3661_2, 0, true⟩ =
      (TimeValue.hms "01:01:01.199", ⟨false, float3661_2, 0, true⟩) ∧
    (CountUpTimer.get_time 0 "HHMMSS" ⟨false, float3661_2, 0, true⟩).1 ≠
      TimeValue.hms "01:01:01.2" := by
  have heval : CountUpTimer.get_time 0 "HHMMSS" ⟨false, float3661_2, 0, true⟩ =
      (TimeValue.hms "01:01:01.199", ⟨false, float3661_2, 0, true⟩) := by
    simp [CountUpTimer.get_time, CountUpTimer._get_time, formatHHMMSS_float3661_2]
  exact ⟨heval, by rw [heval]; decide⟩

/-- C8 (amended): in mode `'HHMMSS'`, a stored elapsed time of float 3661.2
(stored as the double `float3661_2 = 3661.2 - 0.4 * 2 ^ (-41)`) on a stopped
count-up timer formats to exactly `"01:01:01.199"`, the seconds string being
zero-padded and truncated to six characters; the exact decimal value 3661.2
would have formatted to `"01:01:01.2"`, so the deviation is due only to the
float representation of the stored value. -/
theorem countup_c8_amended :
    CountUpTimer.get_time 0 "HHMMSS" ⟨false, float3661_2, 0, true⟩ =
      (TimeValue.hms "01:01:01.199", ⟨false, float3661_2, 0, true⟩) ∧
    formatHHMMSS (3661.2 : ℚ) = "01:01:01.2" :=
  ⟨by simp [CountUpTimer.get_time, CountUpTimer._get_time, formatHHMMSS_float3661_2],
   formatHHMMSS_exact3661_2⟩

/-- C6 (amended): construction from a string succeeds exactly when splitting
on colons yields at least three fields whose first two parse as integers and
whose third parses as a float (extra fields are ignored; with fewer than
three fields the failure is the propagated index error, otherwise the
propagated conversion error); on success the parsed total
`hours*3600 + minutes*60 + seconds` is stored and handed to the wrapped
timer, and no partially constructed timer exists on failure. -/
theorem countdown_c6 (s : String) (c : Bool) :
    ((CountDownTimer.init s c).isSome ↔
      ∃ s0 s1 s2, (pySplit s ':')[0]? = some s0 ∧ (pySplit s ':')[1]? = some s1 ∧
        (pySplit s ':')[2]? = some s2 ∧
        (pyParseInt s0).isSome ∧ (pyParseInt s1).isSome ∧ (pyParseFloat s2).isSome) ∧
    (∀ t, CountDownTimer.init s c = some t →
      ∃ s0 s1 s2 h m sec, (pySplit s ':')[0]? = some s0 ∧ (pySplit s ':')[1]? = some s1 ∧
        (pySplit s ':')[2]? = some s2 ∧
        pyParseInt s0 = some h ∧ pyParseInt s1 = some m ∧ pyParseFloat s2 = some sec ∧
        t.seconds = (h : ℚ) * 3600 + (m : ℚ) * 60 + sec ∧
        t.timer = Timer.init t.seconds c) := by
  cases hg0 : (pySplit s ':')[0]? with
  | none =>
    have hn : CountDownTimer.init s c = none := by simp [CountDownTimer.init, hg0]
    exact ⟨by simp [hn], fun t ht => absurd (hn ▸ ht) (by simp)⟩
  | some s0 =>
    cases hp0 : pyParseInt s0 with
    | none =>
      have hn : CountDownTimer.init s c = none := by simp [CountDownTimer.init, hg0, hp0]
      exact ⟨by simp [hn, hp0], fun t ht => absurd (hn ▸ ht) (by simp)⟩
    | some hrs =>
      cases hg1 : (pySplit s ':')[1]? with
      | none =>
        have hn : CountDownTimer.init s c = none := by
          simp [CountDownTimer.init, hg0, hp0, hg1]
        exact ⟨by simp [hn], fun t ht => absurd (hn ▸ ht) (by simp)⟩
      | some s1 =>
        cases hp1 : pyParseInt s1 with
        | none =>
          have hn : CountDownTimer.init s c = none := by
            simp [CountDownTimer.init, hg0, hp0, hg1, hp1]
          exact ⟨by simp [hn, hp0, hp1], fun t ht => absurd (hn ▸ ht) (by simp)⟩
        | some mins =>
          cases hg2 : (pySplit s ':')[2]? with
          | none =>
            have hn : CountDownTimer.init s c = none := by
              simp [CountDownTimer.init, hg0, hp0, hg1, hp1, hg2]
            exact ⟨by simp [hn], fun t ht => absurd (hn ▸ ht) (by simp)⟩
          | some s2 =>
            cases hpf : pyParseFloat s2 with
            | none =>
              have hn : CountDownTimer.init s c = none := by
                simp [CountDownTimer.init, hg0, hp0, hg1, hp1, hg2, hpf]
              exact ⟨by simp [hn, hp0, hp1, hpf], fun t ht => absurd (hn ▸ ht) (by simp)⟩
            | some sec =>
              have hsome : CountDownTimer.init s c =
                  some ⟨(hrs : ℚ) * 3600 + (mins : ℚ) * 60 + sec,
                        Timer.init ((hrs : ℚ) * 3600 + (mins : ℚ) * 60 + sec) c⟩ := by
                cases c <;> simp [CountDownTimer.init, hg0, hp0, hg1, hp1, hg2, hpf]
              constructor
              · simp only [hsome, Option.isSome_some, true_iff]
                exact ⟨s0, s1, s2, rfl, rfl, rfl, by simp [hp0], by simp [hp1],
                  by simp [hpf]⟩
              · intro t ht
                rw [hsome] at ht
                injection ht with ht
                subst ht
                exact ⟨s0, s1, s2, hrs, mins, sec, rfl, rfl, rfl, hp0, hp1, hpf, rfl, rfl⟩

/-- Witness for C6 (amended): the well-formed string `"0:0:1"` constructs
successfully. -/
theorem countdown_c6_witness : (CountDownTimer.init "0:0:1" false).isSome :=
  (countdown_c6 "0:0:1" false).1.mpr
    ⟨"0", "0", "1", by decide, by decide, by decide, by decide, by decide, by decide⟩

/-- C6 counterexample: `"1:2:3:4"` is not of the `H:M:S` form (it has four
colon-separated fields, and `"3:4"` is no parseable float), yet construction
succeeds because the implementation ignores everything after the third
field — refuting the claim that every non-`H:M:S` input signals a parse
failure. -/
theorem countdown_c6_counterexample :
    specHMSForm "1:2:3:4" = false ∧
    (CountDownTimer.init "1:2:3:4" false).isSome = true := by
  exact ⟨by decide, by decide⟩
